import Mathlib

/-!
Verification of the life-calendar wallpaper generator (`lifecalender.py`).

The development shallowly embeds the date arithmetic and the rendering
decisions of `LifeCalendarGenerator`:

* `calculateYearWeeks` / `calculateLifeWeeks` embed the two period
  computations (`calculate_year_weeks`, `calculate_life_weeks`); dates are
  represented by their day number (Python `date` ordinals are
  order-isomorphic to the integers and subtraction of dates yields the
  difference of day numbers).
* `monthsBetween` embeds the month-list `while` loop of
  `draw_month_rows_year_calendar` and `cellPaint` the per-cell
  classification of that renderer; `drawMonthRows` packages the
  observable output (month rows, painted cells, labels, image size).
* `drawGridDots` embeds the row-major dot loop of `draw_grid` including
  its `prev_period_index` separator state.
* `drawGridLayout` / `monthRowsLayout` embed the grid-placement
  arithmetic (`//` of Python is `Int.fdiv`).
* `bgCorners` embeds the palette-mixing background computation as a
  function of the values drawn from the (unseeded) global random
  generator, and the gradient formulas of both background paths are
  embedded per channel (`numpyChannel`, `fallbackChannel`).
-/

namespace LifeCal

/-- Gregorian leap-year test, as `calendar.isleap`. -/
def isLeap (y : Int) : Bool :=
  (y % 4 == 0 && y % 100 != 0) || (y % 400 == 0)

/-- Number of days of month `m` of year `y`, as `calendar.monthrange(y, m)[1]`. -/
def daysInMonth (y m : Int) : Int :=
  if m = 2 then (if isLeap y then 29 else 28)
  else if m = 4 ∨ m = 6 ∨ m = 9 ∨ m = 11 then 30
  else 31

/-- Day number of the Gregorian date `y-m-d` (0 = 1970-01-01, standard
civil-from-days algorithm).  Python `date` objects compare and subtract
exactly as their day numbers do, so periods and cell dates are embedded
through this function. -/
def rd (y m d : Int) : Int :=
  let y' := if m ≤ 2 then y - 1 else y
  let era := Int.fdiv y' 400
  let yoe := y' - era * 400
  let mp := (m + 9) % 12
  let doy := Int.fdiv (153 * mp + 2) 5 + d - 1
  let doe := yoe * 365 + Int.fdiv yoe 4 - Int.fdiv yoe 100 + doy
  era * 146097 + doe - 719468

/-- Result tuple of `calculate_year_weeks`. -/
structure YearWeeks where
  weeksElapsed : Int
  totalWeeks : Int
  weeksRemaining : Int
  daysElapsed : Int
  totalDays : Int
  daysRemaining : Int
  deriving DecidableEq

/-- Embedding of `calculate_year_weeks` (dates given as day numbers;
`period_start`/`period_end` are the already-resolved period bounds and
`today` is `date.today()`). -/
def calculateYearWeeks (periodStart periodEnd today : Int) : YearWeeks :=
  let totalDays := periodEnd - periodStart + 1
  let totalWeeks := Int.fdiv (totalDays + 6) 7
  let elapsed :=
    if today < periodStart then ((0 : Int), (0 : Int))
    else if today > periodEnd then (totalDays, totalWeeks)
    else (today - periodStart + 1, Int.fdiv (today - periodStart + 1) 7)
  let daysElapsed := elapsed.1
  let weeksElapsed := elapsed.2
  let weeksElapsed := if weeksElapsed > totalWeeks then totalWeeks else weeksElapsed
  let daysElapsed := if daysElapsed > totalDays then totalDays else daysElapsed
  { weeksElapsed := weeksElapsed
    totalWeeks := totalWeeks
    weeksRemaining := totalWeeks - weeksElapsed
    daysElapsed := daysElapsed
    totalDays := totalDays
    daysRemaining := totalDays - daysElapsed }

/-- Result tuple of `calculate_life_weeks`. -/
structure LifeWeeks where
  weeksLived : Int
  totalWeeks : Int
  weeksRemaining : Int
  daysLived : Int
  totalDays : Int
  daysRemaining : Int
  deriving DecidableEq

/-- Embedding of `calculate_life_weeks` (dates given as day numbers). -/
def calculateLifeWeeks (birthDate today : Int) : LifeWeeks :=
  let expectedLifespanYears : Int := 90
  let totalWeeks := expectedLifespanYears * 52
  let totalDays := expectedLifespanYears * 365
  let daysLived := today - birthDate
  let weeksLived := Int.fdiv daysLived 7
  { weeksLived := weeksLived
    totalWeeks := totalWeeks
    weeksRemaining := totalWeeks - weeksLived
    daysLived := daysLived
    totalDays := totalDays
    daysRemaining := totalDays - daysLived }

/-- Range check of `main`: `--year-start`/`--year-end` are rejected when
`year_start_date >= year_end_date` (the program prints an error and exits
before the generator runs). -/
def mainRejectsRange (startDate endDate : Int) : Bool :=
  decide (endDate ≤ startDate)

/-- Embedding of the month-list `while` loop of
`draw_month_rows_year_calendar`, with explicit fuel standing for the
loop's termination (the guard is Python's lexicographic
`(year, month) <= (end.year, end.month)`). -/
def monthsLoopFuel : Nat → Int → Int → Int → Int → List (Int × Int)
  | 0, _, _, _, _ => []
  | fuel + 1, y, m, ey, em =>
    if y < ey ∨ (y = ey ∧ m ≤ em) then
      (y, m) ::
        (if m = 12 then monthsLoopFuel fuel (y + 1) 1 ey em
         else monthsLoopFuel fuel y (m + 1) ey em)
    else []

/-- Month list of `draw_month_rows_year_calendar`: all `(year, month)`
pairs from the start month to the end month inclusive.  The fuel bound is
the number of months of the span, which is exactly the number of loop
iterations for calendar months (`1 ≤ month ≤ 12`). -/
def monthsBetween (sy sm ey em : Int) : List (Int × Int) :=
  monthsLoopFuel (12 * (ey - sy) + (em - sm) + 1).toNat sy sm ey em

/-- Month pair with linear index `i` (where month `(y, m)` has index
`12*y + m`); used to state the chronological-order characterization of
`monthsBetween`. -/
def monthOfIdx (i : Int) : Int × Int :=
  (Int.fdiv (i - 1) 12, (i - 1) % 12 + 1)

/-- Ways a month-row cell is painted: a near-invisible `disabled_dot`
placeholder, the three-layer today highlight (`today_glow`, `today_ring`,
`today_dot`), a filled dot (glow, `period_colors_filled[weekGroup]` dot
and embedded white highlight ellipse), or an empty
`period_colors_empty[weekGroup]` dot. -/
inductive CellPaint where
  | disabled : CellPaint
  | todayHighlight : CellPaint
  | filledDot (weekGroup : Nat) : CellPaint
  | emptyDot (weekGroup : Nat) : CellPaint
  deriving DecidableEq

/-- Fill horizon of `draw_month_rows_year_calendar`: `today` clamped into
the period, with `period_start - timedelta(days=1)` when today precedes
the period (so nothing is filled) and `period_end` when today follows it
(so everything in range is filled). -/
def filledUntil (periodStart periodEnd today : Int) : Int :=
  if today < periodStart then periodStart - 1
  else if today > periodEnd then periodEnd
  else today

/-- Per-cell classification of `draw_month_rows_year_calendar` for the
row of month `(y, m)` and column `colIdx` (day `colIdx + 1`), with the
period bounds and today given as day numbers. -/
def cellPaint (y m : Int) (colIdx : Nat) (periodStart periodEnd today : Int) : CellPaint :=
  let dayNum : Int := (colIdx : Int) + 1
  let weekGroup := (colIdx / 7) % 4
  if dayNum > daysInMonth y m then CellPaint.disabled
  else
    let cellDate := rd y m dayNum
    if cellDate < periodStart ∨ cellDate > periodEnd then CellPaint.disabled
    else if cellDate = today ∧ periodStart ≤ today ∧ today ≤ periodEnd then
      CellPaint.todayHighlight
    else if cellDate ≤ filledUntil periodStart periodEnd today then
      CellPaint.filledDot weekGroup
    else CellPaint.emptyDot weekGroup

/-- Painted month-row cell: month-row index, column (day - 1) and paint. -/
structure MonthCell where
  rowIdx : Nat
  colIdx : Nat
  paint : CellPaint
  deriving DecidableEq

/-- Observable output of `draw_month_rows_year_calendar`: the month rows,
the clamped row count `max(1, len(months))`, the fixed 31 columns, every
painted day cell, the month labels (one per row) and the size of the
returned RGB image (always the full canvas). -/
structure MonthRowsResult where
  months : List (Int × Int)
  rows : Nat
  cols : Nat
  cells : List MonthCell
  labels : List (Int × Int)
  imageWidth : Int
  imageHeight : Int
  deriving DecidableEq

/-- Embedding of the observable behaviour of
`draw_month_rows_year_calendar` (period bounds as `y-m-d` triples, today
as a day number). -/
def drawMonthRows (width height : Int) (psY psM psD peY peM peD today : Int) :
    MonthRowsResult :=
  let months := monthsBetween psY psM peY peM
  let periodStart := rd psY psM psD
  let periodEnd := rd peY peM peD
  { months := months
    rows := max 1 months.length
    cols := 31
    cells :=
      (months.enum).flatMap fun rowMonth =>
        (List.range 31).map fun colIdx =>
          { rowIdx := rowMonth.1
            colIdx := colIdx
            paint := cellPaint rowMonth.2.1 rowMonth.2.2 colIdx periodStart periodEnd today }
    labels := months
    imageWidth := width
    imageHeight := height }

/-- RGB triple of `draw_grid`'s dot palettes. -/
abbrev RGB := Nat × Nat × Nat

/-- Filled-dot colors of `draw_grid` (`period_colors_filled`). -/
def periodColorsFilled : List RGB :=
  [(255, 255, 255), (180, 210, 255), (255, 210, 180), (180, 255, 210)]

/-- Empty-dot colors of `draw_grid` (`period_colors_empty`). -/
def periodColorsEmpty : List RGB :=
  [(35, 35, 40), (35, 38, 50), (50, 38, 35), (38, 50, 40)]

/-- Ways a flat-stream dot is painted: the three-layer today highlight,
a filled dot (`period_colors_filled[bucket]` with glow and embedded
highlight ellipse), or an empty `period_colors_empty[bucket]` dot. -/
inductive DotPaint where
  | todayHighlight : DotPaint
  | filledWithHighlight (bucket : Nat) : DotPaint
  | emptyDot (bucket : Nat) : DotPaint
  deriving DecidableEq

/-- Dot drawn by `draw_grid`: grid position, whether a vertical separator
line was drawn immediately before it, and its paint. -/
structure DrawnDot where
  row : Nat
  col : Nat
  sep : Bool
  paint : DotPaint
  deriving DecidableEq

/-- Loop body of `draw_grid`'s dot loop for one `(row, col)` cell.  The
state is `(dot_index, prev_period_index, dots drawn so far in reverse)`;
when `dot_index` has reached the number of dots to show the cell is
skipped (Python `break`). -/
def gridStep (filledCount dotsPerPeriod total : Nat) (currentDayIndex : Option Nat)
    (st : Nat × Int × List DrawnDot) (cell : Nat × Nat) : Nat × Int × List DrawnDot :=
  let dotIndex := st.1
  let prevPeriod := st.2.1
  let acc := st.2.2
  if dotIndex < total then
    let periodIndex := dotIndex / dotsPerPeriod
    let periodColorIndex := periodIndex % periodColorsFilled.length
    let sep := decide ((periodIndex : Int) ≠ prevPeriod) && decide (prevPeriod ≠ -1) &&
      decide (0 < cell.2)
    let paint :=
      if dotIndex < filledCount then
        if currentDayIndex = some dotIndex then DotPaint.todayHighlight
        else DotPaint.filledWithHighlight periodColorIndex
      else DotPaint.emptyDot periodColorIndex
    (dotIndex + 1, (periodIndex : Int),
      { row := cell.1, col := cell.2, sep := sep, paint := paint } :: acc)
  else st

/-- Row-major cell order of `draw_grid`'s nested `for row / for col` loop. -/
def gridCells (rows cols : Nat) : List (Nat × Nat) :=
  (List.range rows).flatMap fun r => (List.range cols).map fun c => (r, c)

/-- Embedding of `draw_grid`'s dot loop: the list of drawn dots in
drawing order, with `total_dots_to_show = min(total_count, cols*rows)`
and `prev_period_index` initialized to `-1`. -/
def drawGridDots (filledCount totalCount dotsPerPeriod cols rows : Nat)
    (currentDayIndex : Option Nat) : List DrawnDot :=
  let total := min totalCount (cols * rows)
  ((gridCells rows cols).foldl
    (gridStep filledCount dotsPerPeriod total currentDayIndex) (0, -1, [])).2.2.reverse

/-- Closed form for the dot of index `k` claimed by the specification:
position `(k / cols, k % cols)`, separator exactly when `k` is not the
first dot, its period differs from the previous dot's period and its
column is not 0, filled exactly when `k < filledCount` (today highlight
when `k` is the current-day index), with color bucket
`(k / dotsPerPeriod) % 4`. -/
def dotSpec (filledCount dotsPerPeriod cols : Nat) (currentDayIndex : Option Nat)
    (k : Nat) : DrawnDot :=
  { row := k / cols
    col := k % cols
    sep := decide (0 < k) && decide (k / dotsPerPeriod ≠ (k - 1) / dotsPerPeriod) &&
      decide (k % cols ≠ 0)
    paint :=
      if k < filledCount then
        if currentDayIndex = some k then DotPaint.todayHighlight
        else DotPaint.filledWithHighlight ((k / dotsPerPeriod) % 4)
      else DotPaint.emptyDot ((k / dotsPerPeriod) % 4) }

/-- Grid placement computed by the renderer. -/
structure Layout where
  usedCols : Nat
  usedRows : Nat
  gridWidth : Int
  gridHeight : Int
  startX : Int
  startY : Int
  deriving DecidableEq

/-- Embedding of `draw_grid`'s placement arithmetic (`used_cols`,
`grid_width`, `used_rows`, `grid_height`, `start_x`, `start_y`); Python
`//` is `Int.fdiv`. -/
def drawGridLayout (width height dotSize spacing : Int) (cols rows totalCount : Nat) :
    Layout :=
  let total := min totalCount (cols * rows)
  let usedCols := if 0 < total then min cols total else cols
  let gridWidth := (usedCols : Int) * (dotSize + spacing) - spacing
  let usedRows := if 0 < total then (total + cols - 1) / cols else rows
  let gridHeight := (usedRows : Int) * (dotSize + spacing) - spacing
  { usedCols := usedCols
    usedRows := usedRows
    gridWidth := gridWidth
    gridHeight := gridHeight
    startX := Int.fdiv (width - gridWidth) 2
    startY := Int.fdiv (height - gridHeight) 2 }

/-- Embedding of `draw_month_rows_year_calendar`'s placement arithmetic:
31 fixed columns and `max(1, len(months))` rows. -/
def monthRowsLayout (width height dotSize spacing : Int) (numMonths : Nat) : Layout :=
  let cols : Nat := 31
  let rows : Nat := max 1 numMonths
  let gridWidth := (cols : Int) * (dotSize + spacing) - spacing
  let gridHeight := (rows : Int) * (dotSize + spacing) - spacing
  { usedCols := cols
    usedRows := rows
    gridWidth := gridWidth
    gridHeight := gridHeight
    startX := Int.fdiv (width - gridWidth) 2
    startY := Int.fdiv (height - gridHeight) 2 }

/-- Corner colors of one background palette of `get_color_palettes`. -/
structure Palette where
  topLeft : Int × Int × Int
  topRight : Int × Int × Int
  bottomLeft : Int × Int × Int
  bottomRight : Int × Int × Int
  deriving DecidableEq, Inhabited

/-- Palettes 1-10 of `get_color_palettes` (Deep Blue and Cyan). -/
def colorPalettes1 : List Palette := [
  ⟨(15, 25, 42), (12, 32, 48), (8, 14, 24), (6, 20, 30)⟩,
  ⟨(18, 28, 45), (15, 35, 50), (10, 16, 26), (8, 22, 32)⟩,
  ⟨(12, 22, 38), (10, 30, 45), (7, 12, 22), (5, 18, 28)⟩,
  ⟨(20, 30, 48), (18, 38, 52), (11, 18, 28), (9, 24, 34)⟩,
  ⟨(14, 24, 40), (11, 28, 46), (8, 13, 23), (6, 19, 29)⟩,
  ⟨(22, 32, 50), (20, 40, 54), (12, 20, 30), (10, 26, 36)⟩,
  ⟨(16, 26, 43), (13, 33, 49), (9, 15, 25), (7, 21, 31)⟩,
  ⟨(13, 23, 39), (11, 31, 47), (7, 12, 22), (5, 18, 28)⟩,
  ⟨(19, 29, 46), (17, 37, 51), (10, 17, 27), (8, 23, 33)⟩,
  ⟨(11, 21, 37), (9, 29, 44), (6, 11, 21), (4, 17, 27)⟩
]

/-- Palettes 11-20 of `get_color_palettes` (Purple and Magenta). -/
def colorPalettes2 : List Palette := [
  ⟨(32, 18, 42), (38, 22, 48), (18, 10, 24), (22, 14, 30)⟩,
  ⟨(35, 20, 45), (41, 24, 50), (20, 11, 26), (24, 15, 32)⟩,
  ⟨(29, 16, 39), (35, 20, 45), (16, 9, 22), (20, 13, 28)⟩,
  ⟨(38, 22, 48), (44, 26, 52), (22, 12, 28), (26, 16, 34)⟩,
  ⟨(26, 14, 36), (32, 18, 42), (14, 8, 20), (18, 12, 26)⟩,
  ⟨(41, 24, 50), (47, 28, 54), (24, 13, 30), (28, 17, 36)⟩,
  ⟨(33, 19, 43), (39, 23, 49), (19, 10, 25), (23, 14, 31)⟩,
  ⟨(30, 17, 40), (36, 21, 46), (17, 9, 23), (21, 13, 29)⟩,
  ⟨(36, 21, 46), (42, 25, 51), (21, 11, 27), (25, 15, 33)⟩,
  ⟨(27, 15, 37), (33, 19, 43), (15, 8, 21), (19, 12, 27)⟩
]

/-- Palettes 21-30 of `get_color_palettes` (Teal and Orange). -/
def colorPalettes3 : List Palette := [
  ⟨(14, 38, 42), (42, 28, 18), (8, 20, 24), (24, 16, 10)⟩,
  ⟨(16, 40, 44), (45, 30, 20), (9, 21, 25), (26, 17, 11)⟩,
  ⟨(12, 36, 40), (39, 26, 16), (7, 19, 23), (22, 15, 9)⟩,
  ⟨(18, 42, 46), (48, 32, 22), (10, 22, 26), (28, 18, 12)⟩,
  ⟨(10, 34, 38), (36, 24, 14), (6, 18, 22), (20, 14, 8)⟩,
  ⟨(20, 44, 48), (50, 34, 24), (11, 23, 27), (30, 19, 13)⟩,
  ⟨(15, 39, 43), (43, 29, 19), (8, 20, 24), (25, 16, 10)⟩,
  ⟨(13, 37, 41), (41, 27, 17), (7, 19, 23), (23, 15, 9)⟩,
  ⟨(17, 41, 45), (46, 31, 21), (9, 21, 25), (27, 17, 11)⟩,
  ⟨(11, 35, 39), (38, 25, 15), (6, 18, 22), (21, 14, 8)⟩
]

/-- Palettes 31-40 of `get_color_palettes` (Navy and Gold). -/
def colorPalettes4 : List Palette := [
  ⟨(12, 18, 35), (42, 35, 18), (7, 10, 20), (24, 20, 10)⟩,
  ⟨(14, 20, 38), (45, 38, 20), (8, 11, 22), (26, 21, 11)⟩,
  ⟨(10, 16, 32), (39, 32, 16), (6, 9, 18), (22, 18, 9)⟩,
  ⟨(16, 22, 40), (48, 40, 22), (9, 12, 24), (28, 22, 12)⟩,
  ⟨(8, 14, 30), (36, 30, 14), (5, 8, 17), (20, 17, 8)⟩,
  ⟨(18, 24, 42), (50, 42, 24), (10, 13, 25), (30, 23, 13)⟩,
  ⟨(13, 19, 36), (43, 36, 19), (7, 10, 20), (25, 20, 10)⟩,
  ⟨(11, 17, 33), (41, 34, 17), (6, 9, 18), (23, 19, 9)⟩,
  ⟨(15, 21, 39), (46, 39, 21), (8, 11, 22), (27, 21, 11)⟩,
  ⟨(9, 15, 31), (37, 31, 15), (5, 8, 17), (21, 18, 8)⟩
]

/-- Palettes 41-50 of `get_color_palettes` (Deep Green and Lime). -/
def colorPalettes5 : List Palette := [
  ⟨(10, 32, 20), (28, 42, 18), (6, 18, 11), (16, 24, 10)⟩,
  ⟨(12, 34, 22), (30, 44, 20), (7, 19, 12), (17, 25, 11)⟩,
  ⟨(8, 30, 18), (26, 40, 16), (5, 17, 10), (15, 23, 9)⟩,
  ⟨(14, 36, 24), (32, 46, 22), (8, 20, 13), (18, 26, 12)⟩,
  ⟨(6, 28, 16), (24, 38, 14), (4, 16, 9), (14, 22, 8)⟩,
  ⟨(16, 38, 26), (34, 48, 24), (9, 21, 14), (19, 27, 13)⟩,
  ⟨(11, 33, 21), (29, 43, 19), (6, 18, 11), (16, 24, 10)⟩,
  ⟨(9, 31, 19), (27, 41, 17), (5, 17, 10), (15, 23, 9)⟩,
  ⟨(13, 35, 23), (31, 45, 21), (7, 19, 12), (17, 25, 11)⟩,
  ⟨(7, 29, 17), (25, 39, 15), (4, 16, 9), (14, 22, 8)⟩
]

/-- Palettes 51-60 of `get_color_palettes` (Indigo and Electric Blue). -/
def colorPalettes6 : List Palette := [
  ⟨(22, 18, 38), (15, 28, 48), (12, 10, 22), (8, 16, 30)⟩,
  ⟨(24, 20, 40), (17, 30, 50), (13, 11, 23), (9, 17, 32)⟩,
  ⟨(20, 16, 36), (13, 26, 46), (11, 9, 21), (7, 15, 29)⟩,
  ⟨(26, 22, 42), (19, 32, 52), (14, 12, 24), (10, 18, 33)⟩,
  ⟨(18, 14, 34), (11, 24, 44), (10, 8, 20), (6, 14, 28)⟩,
  ⟨(28, 24, 44), (21, 34, 54), (15, 13, 25), (11, 19, 34)⟩,
  ⟨(23, 19, 39), (16, 29, 49), (12, 10, 22), (8, 16, 30)⟩,
  ⟨(21, 17, 37), (14, 27, 47), (11, 9, 21), (7, 15, 29)⟩,
  ⟨(25, 21, 41), (18, 31, 51), (13, 11, 23), (9, 17, 32)⟩,
  ⟨(19, 15, 35), (12, 25, 45), (10, 8, 20), (6, 14, 28)⟩
]

/-- Palettes 61-70 of `get_color_palettes` (Charcoal and Neon Pink). -/
def colorPalettes7 : List Palette := [
  ⟨(24, 24, 28), (48, 20, 38), (13, 13, 16), (28, 11, 22)⟩,
  ⟨(26, 26, 30), (50, 22, 40), (14, 14, 17), (30, 12, 23)⟩,
  ⟨(22, 22, 26), (46, 18, 36), (12, 12, 15), (26, 10, 21)⟩,
  ⟨(28, 28, 32), (52, 24, 42), (15, 15, 18), (32, 13, 24)⟩,
  ⟨(20, 20, 24), (44, 16, 34), (11, 11, 14), (24, 9, 20)⟩,
  ⟨(30, 30, 34), (54, 26, 44), (16, 16, 19), (34, 14, 25)⟩,
  ⟨(25, 25, 29), (49, 21, 39), (13, 13, 16), (29, 11, 22)⟩,
  ⟨(23, 23, 27), (47, 19, 37), (12, 12, 15), (27, 10, 21)⟩,
  ⟨(27, 27, 31), (51, 23, 41), (14, 14, 17), (31, 12, 23)⟩,
  ⟨(21, 21, 25), (45, 17, 35), (11, 11, 14), (25, 9, 20)⟩
]

/-- Palettes 71-80 of `get_color_palettes` (Dark Slate and Cyan). -/
def colorPalettes8 : List Palette := [
  ⟨(22, 26, 30), (12, 32, 42), (12, 14, 17), (6, 18, 25)⟩,
  ⟨(24, 28, 32), (14, 34, 44), (13, 15, 18), (7, 19, 26)⟩,
  ⟨(20, 24, 28), (10, 30, 40), (11, 13, 16), (5, 17, 24)⟩,
  ⟨(26, 30, 34), (16, 36, 46), (14, 16, 19), (8, 20, 27)⟩,
  ⟨(18, 22, 26), (8, 28, 38), (10, 12, 15), (4, 16, 23)⟩,
  ⟨(28, 32, 36), (18, 38, 48), (15, 17, 20), (9, 21, 28)⟩,
  ⟨(23, 27, 31), (13, 33, 43), (12, 14, 17), (6, 18, 25)⟩,
  ⟨(21, 25, 29), (11, 31, 41), (11, 13, 16), (5, 17, 24)⟩,
  ⟨(25, 29, 33), (15, 35, 45), (13, 15, 18), (7, 19, 26)⟩,
  ⟨(19, 23, 27), (9, 29, 39), (10, 12, 15), (4, 16, 23)⟩
]

/-- Palettes 81-90 of `get_color_palettes` (Deep Purple and Electric Violet). -/
def colorPalettes9 : List Palette := [
  ⟨(28, 14, 38), (42, 22, 52), (16, 8, 22), (24, 12, 32)⟩,
  ⟨(30, 16, 40), (44, 24, 54), (17, 9, 23), (25, 13, 33)⟩,
  ⟨(26, 12, 36), (40, 20, 50), (15, 7, 21), (23, 11, 31)⟩,
  ⟨(32, 18, 42), (46, 26, 56), (18, 10, 24), (26, 14, 34)⟩,
  ⟨(24, 10, 34), (38, 18, 48), (14, 6, 20), (22, 10, 30)⟩,
  ⟨(34, 20, 44), (48, 28, 58), (19, 11, 25), (27, 15, 35)⟩,
  ⟨(29, 15, 39), (43, 23, 53), (16, 8, 22), (24, 12, 32)⟩,
  ⟨(27, 13, 37), (41, 21, 51), (15, 7, 21), (23, 11, 31)⟩,
  ⟨(31, 17, 41), (45, 25, 55), (17, 9, 23), (25, 13, 33)⟩,
  ⟨(25, 11, 35), (39, 19, 49), (14, 6, 20), (22, 10, 30)⟩
]

/-- Palettes 91-100 of `get_color_palettes` (Dark Teal and Coral). -/
def colorPalettes10 : List Palette := [
  ⟨(12, 36, 38), (44, 28, 24), (7, 20, 22), (25, 16, 14)⟩,
  ⟨(14, 38, 40), (46, 30, 26), (8, 21, 23), (26, 17, 15)⟩,
  ⟨(10, 34, 36), (42, 26, 22), (6, 19, 21), (24, 15, 13)⟩,
  ⟨(16, 40, 42), (48, 32, 28), (9, 22, 24), (28, 18, 16)⟩,
  ⟨(8, 32, 34), (40, 24, 20), (5, 18, 20), (22, 14, 12)⟩,
  ⟨(18, 42, 44), (50, 34, 30), (10, 23, 25), (30, 19, 17)⟩,
  ⟨(13, 37, 39), (45, 29, 25), (7, 20, 22), (25, 16, 14)⟩,
  ⟨(11, 35, 37), (43, 27, 23), (6, 19, 21), (24, 15, 13)⟩,
  ⟨(15, 39, 41), (47, 31, 27), (8, 21, 23), (26, 17, 15)⟩,
  ⟨(9, 33, 35), (41, 25, 21), (5, 18, 20), (23, 14, 12)⟩
]

/-- The 100 background palettes of `get_color_palettes`, in order. -/
def colorPalettes : List Palette :=
  colorPalettes1 ++ colorPalettes2 ++ colorPalettes3 ++ colorPalettes4 ++ colorPalettes5 ++
    colorPalettes6 ++ colorPalettes7 ++ colorPalettes8 ++ colorPalettes9 ++ colorPalettes10

/-- Channel-wise rational triple used for the background arithmetic
(`numpy` float operations are modelled exactly over `ℚ`). -/
abbrev Q3 := ℚ × ℚ × ℚ

/-- Channel-wise addition. -/
def addQ3 (a b : Q3) : Q3 := (a.1 + b.1, a.2.1 + b.2.1, a.2.2 + b.2.2)

/-- Channel-wise scaling. -/
def smulQ3 (w : ℚ) (a : Q3) : Q3 := (w * a.1, w * a.2.1, w * a.2.2)

/-- Integer RGB triple as a rational triple. -/
def ofRGB (c : Int × Int × Int) : Q3 := ((c.1 : ℚ), (c.2.1 : ℚ), (c.2.2 : ℚ))

/-- Channel-wise `np.clip(x, lo, hi)`. -/
def clipQ3 (x : Q3) (lo hi : ℚ) : Q3 :=
  (max lo (min x.1 hi), max lo (min x.2.1 hi), max lo (min x.2.2 hi))

/-- Values drawn from the global (unseeded) random generator by the
background code of `draw_grid` / `draw_month_rows_year_calendar`:
`random.sample`'s palette picks, the blend weights, the shared corner
variation (`variation`, applied to the left corners), the two fresh
`random.randint(-2, 2)` draws for the right corners and the brightness
boost `random.uniform(1.0, 1.15)`.  The calendar date is *not* among the
inputs: no seed is ever set. -/
structure BgDraws where
  paletteChoices : List Nat
  weights : List ℚ
  variation : Int
  variationTopRight : Int
  variationBottomRight : Int
  boost : ℚ
  deriving DecidableEq

/-- Blend of one corner across the sampled palettes
(`blend_corner`): the weighted sum of the corner color over the selected
palettes. -/
def blendCorner (draws : BgDraws) (corner : Palette → Int × Int × Int) : Q3 :=
  ((draws.paletteChoices.map fun i => (colorPalettes.getD i default)).zip draws.weights).foldl
    (fun acc pw => addQ3 acc (smulQ3 pw.2 (ofRGB (corner pw.1)))) (0, 0, 0)

/-- Background corner colors computed by the `HAS_NUMPY` path: blended
corners, plus variation, boosted, clipped into `[10, 55]` (top) or
`[5, 35]` (bottom). -/
def bgCorners (draws : BgDraws) : Q3 × Q3 × Q3 × Q3 :=
  let topLeft := clipQ3
    (smulQ3 draws.boost (addQ3 (blendCorner draws Palette.topLeft)
      ((draws.variation : ℚ), (draws.variation : ℚ), (draws.variation : ℚ)))) 10 55
  let topRight := clipQ3
    (smulQ3 draws.boost (addQ3 (blendCorner draws Palette.topRight)
      ((draws.variationTopRight : ℚ), (draws.variationTopRight : ℚ),
        (draws.variationTopRight : ℚ)))) 10 55
  let bottomLeft := clipQ3
    (smulQ3 draws.boost (addQ3 (blendCorner draws Palette.bottomLeft)
      ((draws.variation : ℚ), (draws.variation : ℚ), (draws.variation : ℚ)))) 5 35
  let bottomRight := clipQ3
    (smulQ3 draws.boost (addQ3 (blendCorner draws Palette.bottomRight)
      ((draws.variationBottomRight : ℚ), (draws.variationBottomRight : ℚ),
        (draws.variationBottomRight : ℚ)))) 5 35
  (topLeft, topRight, bottomLeft, bottomRight)

/-- Linear interpolation `a * (1 - t) + b * t` (the specification's
`lerp`). -/
def lerpQ (a b t : ℚ) : ℚ := a * (1 - t) + b * t

/-- Per-channel bilinear gradient of the vectorized (`numpy`) path:
`top = tl*(1-nx) + tr*nx`, `bottom = bl*(1-nx) + br*nx`,
`color = top*(1-ny) + bottom*ny`. -/
def numpyChannel (tl tr bl br : ℚ) (nx ny : ℚ) : ℚ :=
  let top := tl * (1 - nx) + tr * nx
  let bottom := bl * (1 - nx) + br * nx
  top * (1 - ny) + bottom * ny

/-- Canonical weight form of bilinear interpolation of the four corner
values, the reference the specification describes. -/
def bilinearWeights (tl tr bl br : ℚ) (nx ny : ℚ) : ℚ :=
  tl * (1 - nx) * (1 - ny) + tr * nx * (1 - ny) + bl * (1 - nx) * ny + br * nx * ny

/-- Vignette and center-glow post-processing of the vectorized path for a
pixel at normalized center distance `ρ = dist / max_dist`:
`color * (1 - ρ*0.15)` then `clip(color * (1 + (1-ρ)*0.2), 0, 255)`. -/
def numpyPostChannel (c ρ : ℚ) : ℚ :=
  max 0 (min ((c * (1 - ρ * (15 / 100))) * (1 + (1 - ρ) * (2 / 10))) 255)

/-- Python `int()` (truncation toward zero) on a rational. -/
def truncQ (q : ℚ) : Int := Int.tdiv q.num q.den

/-- Per-channel color of the scanline fallback path for corner channels
`a = top_left`, `b = top_right`, `c = bottom_left`, `d = bottom_right`:
`top = int(a*(1-ny) + b*ny)`, `bottom = int(c*(1-ny) + d*ny)`,
`int(top*(1-nx) + bottom*nx)` — exactly the source's expressions. -/
def fallbackChannel (a b c d : Int) (nx ny : ℚ) : Int :=
  let top := truncQ ((a : ℚ) * (1 - ny) + (b : ℚ) * ny)
  let bottom := truncQ ((c : ℚ) * (1 - ny) + (d : ℚ) * ny)
  truncQ ((top : ℚ) * (1 - nx) + (bottom : ℚ) * nx)

/-- The fallback path's interpolation without the intermediate `int()`
truncations, used to characterize which bilinear blend that path
actually computes. -/
def fallbackRealChannel (a b c d : ℚ) (nx ny : ℚ) : ℚ :=
  let top := a * (1 - ny) + b * ny
  let bottom := c * (1 - ny) + d * ny
  top * (1 - nx) + bottom * nx

/-- Per-channel bilinear interpolation written with the specification's
`lerp` compositions: `top = lerp(TL, TR, nx)`, `bottom = lerp(BL, BR,
nx)`, `color = lerp(top, bottom, ny)`. -/
def specBilinearChannel (a b c d : ℚ) (nx ny : ℚ) : ℚ :=
  lerpQ (lerpQ a b nx) (lerpQ c d nx) ny

/-- Floor division by seven is Euclidean division by seven. -/
theorem fdiv_seven (a : Int) : Int.fdiv a 7 = a / 7 :=
  Int.fdiv_eq_ediv a (by norm_num)

/-- C1 counterexample: the claim fails for `calculate_life_weeks`, which
never clamps.  With birth date 2030-01-01 and today 2025-10-12 (today
before the period start) the elapsed-days count is negative instead of 0,
violating `0 ≤ elapsedDays`. -/
theorem c1_life_unclamped_counterexample :
    (calculateLifeWeeks (rd 2030 1 1) (rd 2025 10 12)).daysLived < 0 ∧
      ¬ (0 ≤ (calculateLifeWeeks (rd 2030 1 1) (rd 2025 10 12)).daysLived) := by
  decide

/-- C1 (amended): for `calculate_year_weeks` with `start ≤ end` the
elapsed-days invariant holds exactly as claimed (`0 ≤ elapsedDays ≤
totalDays` with `totalDays = (end - start).days + 1`, zero before the
period, total after it, `(today - start).days + 1` inside it); but
`calculate_life_weeks` returns the unclamped `(today - birth).days`
without the `+ 1`, so the invariant does not extend to it. -/
theorem c1_period_elapsed_amended (ps pe today b t : Int) (h : ps ≤ pe) :
    (0 ≤ (calculateYearWeeks ps pe today).daysElapsed ∧
      (calculateYearWeeks ps pe today).daysElapsed ≤ (calculateYearWeeks ps pe today).totalDays ∧
      (calculateYearWeeks ps pe today).totalDays = pe - ps + 1 ∧
      (today < ps → (calculateYearWeeks ps pe today).daysElapsed = 0) ∧
      (pe < today →
        (calculateYearWeeks ps pe today).daysElapsed = (calculateYearWeeks ps pe today).totalDays) ∧
      (ps ≤ today → today ≤ pe →
        (calculateYearWeeks ps pe today).daysElapsed = today - ps + 1)) ∧
    (calculateLifeWeeks b t).daysLived = t - b := by
  simp only [calculateYearWeeks, calculateLifeWeeks, fdiv_seven]
  split_ifs <;> simp_all <;> omega

/-- C1 amended witness: the period 0..9 with today 5 and a life period
with birth 0, today 3. -/
theorem c1_period_elapsed_amended_witness :
    (0 ≤ (calculateYearWeeks 0 9 5).daysElapsed ∧
      (calculateYearWeeks 0 9 5).daysElapsed ≤ (calculateYearWeeks 0 9 5).totalDays ∧
      (calculateYearWeeks 0 9 5).totalDays = 9 - 0 + 1 ∧
      ((5 : Int) < 0 → (calculateYearWeeks 0 9 5).daysElapsed = 0) ∧
      ((9 : Int) < 5 → (calculateYearWeeks 0 9 5).daysElapsed = (calculateYearWeeks 0 9 5).totalDays) ∧
      ((0 : Int) ≤ 5 → (5 : Int) ≤ 9 → (calculateYearWeeks 0 9 5).daysElapsed = 5 - 0 + 1)) ∧
    (calculateLifeWeeks 0 3).daysLived = 3 - 0 :=
  c1_period_elapsed_amended 0 9 5 0 3 (by decide)

/-- C9: when the period ends today (`start ≤ today = end`) and the total
day count is not a multiple of 7, `calculate_year_weeks` reports zero
days remaining but one week remaining: `total_weeks` rounds up while
`weeks_elapsed` rounds down. -/
theorem c9_final_day_week_mismatch (ps pe today : Int)
    (hs : ps ≤ today) (he : today = pe) (hm : (pe - ps + 1) % 7 ≠ 0) :
    (calculateYearWeeks ps pe today).daysRemaining = 0 ∧
      (calculateYearWeeks ps pe today).weeksRemaining = 1 := by
  simp only [calculateYearWeeks, fdiv_seven]
  split_ifs <;> simp_all <;> omega

/-- C9 witness: the ten-day period 0..9 on its final day. -/
theorem c9_final_day_week_mismatch_witness :
    (calculateYearWeeks 0 9 9).daysRemaining = 0 ∧
      (calculateYearWeeks 0 9 9).weeksRemaining = 1 :=
  c9_final_day_week_mismatch 0 9 9 (by decide) (by decide) (by decide)

/-- The month loop produces nothing when its guard fails at entry,
whatever the fuel. -/
theorem monthsLoopFuel_nil (n : Nat) (y m ey em : Int)
    (h : ¬ (y < ey ∨ (y = ey ∧ m ≤ em))) : monthsLoopFuel n y m ey em = [] := by
  cases n <;> simp [monthsLoopFuel, h]

/-- The month list is empty when the start month is lexicographically
after the end month. -/
theorem monthsBetween_nil (sy sm ey em : Int)
    (h : ey < sy ∨ (ey = sy ∧ em < sm)) : monthsBetween sy sm ey em = [] := by
  apply monthsLoopFuel_nil
  push_neg
  constructor
  · omega
  · intro h'
    omega

/-- C8 counterexample: with `start = 2024-05-01 > end = 2024-04-30`,
`calculate_year_weeks` does not raise — it returns a zero total-day
count — and `draw_month_rows_year_calendar` does not raise — it clamps
to a one-row grid with an empty month list. -/
theorem c8_no_fail_fast_counterexample :
    (calculateYearWeeks (rd 2024 5 1) (rd 2024 4 30) (rd 2024 4 30)).totalDays = 0 ∧
      (drawMonthRows 1920 1080 2024 5 1 2024 4 30 (rd 2024 4 30)).rows = 1 ∧
      (drawMonthRows 1920 1080 2024 5 1 2024 4 30 (rd 2024 4 30)).months = [] := by
  decide

/-- C8 (amended): no precondition check lives in the core.  Range
validation happens only in the excluded CLI layer (`main` rejects
`year_start >= year_end` before the generator runs); the core itself
never fails: with `start > end`, `calculate_year_weeks` returns a
nonpositive total-day count and the month-row renderer's month list is
empty, silently clamped to one row. -/
theorem c8_validation_on_cli_amended (s e t sy sm ey em : Int)
    (hse : e < s) (hlex : ey < sy ∨ (ey = sy ∧ em < sm)) :
    mainRejectsRange s e = true ∧
      (calculateYearWeeks s e t).totalDays ≤ 0 ∧
      monthsBetween sy sm ey em = [] := by
  refine ⟨?_, ?_, monthsBetween_nil sy sm ey em hlex⟩
  · simp only [mainRejectsRange, decide_eq_true_eq]
    omega
  · simp only [calculateYearWeeks]
    omega

/-- C8 amended witness: start 2024-05-01, end 2024-04-30. -/
theorem c8_validation_on_cli_amended_witness :
    mainRejectsRange (rd 2024 5 1) (rd 2024 4 30) = true ∧
      (calculateYearWeeks (rd 2024 5 1) (rd 2024 4 30) (rd 2024 4 30)).totalDays ≤ 0 ∧
      monthsBetween 2024 5 2024 4 = [] :=
  c8_validation_on_cli_amended (rd 2024 5 1) (rd 2024 4 30) (rd 2024 4 30) 2024 5 2024 4
    (by decide) (by decide)

/-- C10: when the start month is lexicographically after the end month,
`draw_month_rows_year_calendar` never raises: the month list is empty,
the row count clamps to `max(1, 0) = 1`, no day cells and no month
labels are drawn, and a full `width × height` RGB image is still
returned. -/
theorem c10_lex_greater_clamped_grid (w h psY psM psD peY peM peD today : Int)
    (hlex : peY < psY ∨ (peY = psY ∧ peM < psM)) :
    (drawMonthRows w h psY psM psD peY peM peD today).months = [] ∧
      (drawMonthRows w h psY psM psD peY peM peD today).rows = 1 ∧
      (drawMonthRows w h psY psM psD peY peM peD today).cells = [] ∧
      (drawMonthRows w h psY psM psD peY peM peD today).labels = [] ∧
      (drawMonthRows w h psY psM psD peY peM peD today).imageWidth = w ∧
      (drawMonthRows w h psY psM psD peY peM peD today).imageHeight = h := by
  have hm := monthsBetween_nil psY psM peY peM hlex
  simp [drawMonthRows, hm]

/-- C10 witness: start 2024-05-01, end 2024-04-30 on a 1920x1080
canvas. -/
theorem c10_lex_greater_clamped_grid_witness :
    (drawMonthRows 1920 1080 2024 5 1 2024 4 30 0).months = [] ∧
      (drawMonthRows 1920 1080 2024 5 1 2024 4 30 0).rows = 1 ∧
      (drawMonthRows 1920 1080 2024 5 1 2024 4 30 0).cells = [] ∧
      (drawMonthRows 1920 1080 2024 5 1 2024 4 30 0).labels = [] ∧
      (drawMonthRows 1920 1080 2024 5 1 2024 4 30 0).imageWidth = 1920 ∧
      (drawMonthRows 1920 1080 2024 5 1 2024 4 30 0).imageHeight = 1080 :=
  c10_lex_greater_clamped_grid 1920 1080 2024 5 1 2024 4 30 0 (by decide)

/-- A grid of width `g` whose origin is the centering position
`(W - g) // 2` lies inside `[0, W]` exactly when it is no wider than the
canvas. -/
theorem centered_fit_iff (W g : Int) :
    (0 ≤ Int.fdiv (W - g) 2 ∧ Int.fdiv (W - g) 2 + g ≤ W) ↔ g ≤ W := by
  rw [Int.fdiv_eq_ediv _ (by norm_num)]
  omega

/-- C5 counterexample: the forced 52-column by 90-row life-calendar grid
at the default `dot_size = 14`, `spacing = 24` does not fit the
1920x1080 canvas: the grid is 1952x3396 pixels and the centered origin
is negative. -/
theorem c5_life_grid_overflow_counterexample :
    (drawGridLayout 1920 1080 14 24 52 90 4680).gridWidth = 1952 ∧
      (drawGridLayout 1920 1080 14 24 52 90 4680).gridHeight = 3396 ∧
      (drawGridLayout 1920 1080 14 24 52 90 4680).startX = -16 ∧
      (drawGridLayout 1920 1080 14 24 52 90 4680).startY = -1158 ∧
      ¬ ((drawGridLayout 1920 1080 14 24 52 90 4680).gridWidth ≤ 1920 ∧
          (drawGridLayout 1920 1080 14 24 52 90 4680).gridHeight ≤ 1080) := by
  decide

/-- C5 (amended): every placement satisfies the size formulas
`gridWidth = usedCols*(dotSize+spacing) - spacing`,
`gridHeight = usedRows*(dotSize+spacing) - spacing` and centers the
origin at `((canvasW - gridWidth) // 2, (canvasH - gridHeight) // 2)`;
the centered grid lies inside the canvas exactly when its size does not
exceed the canvas.  That holds for the 31-column month-row grid at the
defaults on 1920x1080 (width 1154, and height at most 1078 for up to 29
month rows), but not for the 52x90 life grid, which overflows. -/
theorem c5_layout_amended (W H d s : Int) (cols rows totalCount nm : Nat)
    (hnm : nm ≤ 29) :
    ((drawGridLayout W H d s cols rows totalCount).gridWidth =
        ((drawGridLayout W H d s cols rows totalCount).usedCols : Int) * (d + s) - s ∧
      (drawGridLayout W H d s cols rows totalCount).gridHeight =
        ((drawGridLayout W H d s cols rows totalCount).usedRows : Int) * (d + s) - s ∧
      (drawGridLayout W H d s cols rows totalCount).startX =
        Int.fdiv (W - (drawGridLayout W H d s cols rows totalCount).gridWidth) 2 ∧
      (drawGridLayout W H d s cols rows totalCount).startY =
        Int.fdiv (H - (drawGridLayout W H d s cols rows totalCount).gridHeight) 2 ∧
      ((0 ≤ (drawGridLayout W H d s cols rows totalCount).startX ∧
          (drawGridLayout W H d s cols rows totalCount).startX +
            (drawGridLayout W H d s cols rows totalCount).gridWidth ≤ W) ↔
        (drawGridLayout W H d s cols rows totalCount).gridWidth ≤ W) ∧
      ((0 ≤ (drawGridLayout W H d s cols rows totalCount).startY ∧
          (drawGridLayout W H d s cols rows totalCount).startY +
            (drawGridLayout W H d s cols rows totalCount).gridHeight ≤ H) ↔
        (drawGridLayout W H d s cols rows totalCount).gridHeight ≤ H)) ∧
    ((monthRowsLayout W H d s nm).gridWidth =
        ((monthRowsLayout W H d s nm).usedCols : Int) * (d + s) - s ∧
      (monthRowsLayout W H d s nm).gridHeight =
        ((monthRowsLayout W H d s nm).usedRows : Int) * (d + s) - s ∧
      (monthRowsLayout W H d s nm).startX =
        Int.fdiv (W - (monthRowsLayout W H d s nm).gridWidth) 2 ∧
      (monthRowsLayout W H d s nm).startY =
        Int.fdiv (H - (monthRowsLayout W H d s nm).gridHeight) 2 ∧
      ((0 ≤ (monthRowsLayout W H d s nm).startX ∧
          (monthRowsLayout W H d s nm).startX + (monthRowsLayout W H d s nm).gridWidth ≤ W) ↔
        (monthRowsLayout W H d s nm).gridWidth ≤ W)) ∧
    (monthRowsLayout 1920 1080 14 24 nm).gridWidth = 1154 ∧
    (monthRowsLayout 1920 1080 14 24 nm).gridWidth ≤ 1920 ∧
    (monthRowsLayout 1920 1080 14 24 nm).gridHeight ≤ 1078 := by
  refine ⟨⟨rfl, rfl, rfl, rfl, centered_fit_iff W _, centered_fit_iff H _⟩,
    ⟨rfl, rfl, rfl, rfl, centered_fit_iff W _⟩, ?_, ?_, ?_⟩
  · norm_num [monthRowsLayout]
  · norm_num [monthRowsLayout]
  · simp only [monthRowsLayout]
    omega

/-- C5 amended witness: a 12-month month-row grid and a 31x12 flat grid
on the default 1920x1080 canvas. -/
theorem c5_layout_amended_witness :
    ((drawGridLayout 1920 1080 14 24 31 12 366).gridWidth =
        ((drawGridLayout 1920 1080 14 24 31 12 366).usedCols : Int) * (14 + 24) - 24 ∧
      (drawGridLayout 1920 1080 14 24 31 12 366).gridHeight =
        ((drawGridLayout 1920 1080 14 24 31 12 366).usedRows : Int) * (14 + 24) - 24 ∧
      (drawGridLayout 1920 1080 14 24 31 12 366).startX =
        Int.fdiv (1920 - (drawGridLayout 1920 1080 14 24 31 12 366).gridWidth) 2 ∧
      (drawGridLayout 1920 1080 14 24 31 12 366).startY =
        Int.fdiv (1080 - (drawGridLayout 1920 1080 14 24 31 12 366).gridHeight) 2 ∧
      ((0 ≤ (drawGridLayout 1920 1080 14 24 31 12 366).startX ∧
          (drawGridLayout 1920 1080 14 24 31 12 366).startX +
            (drawGridLayout 1920 1080 14 24 31 12 366).gridWidth ≤ 1920) ↔
        (drawGridLayout 1920 1080 14 24 31 12 366).gridWidth ≤ 1920) ∧
      ((0 ≤ (drawGridLayout 1920 1080 14 24 31 12 366).startY ∧
          (drawGridLayout 1920 1080 14 24 31 12 366).startY +
            (drawGridLayout 1920 1080 14 24 31 12 366).gridHeight ≤ 1080) ↔
        (drawGridLayout 1920 1080 14 24 31 12 366).gridHeight ≤ 1080)) ∧
    ((monthRowsLayout 1920 1080 14 24 12).gridWidth =
        ((monthRowsLayout 1920 1080 14 24 12).usedCols : Int) * (14 + 24) - 24 ∧
      (monthRowsLayout 1920 1080 14 24 12).gridHeight =
        ((monthRowsLayout 1920 1080 14 24 12).usedRows : Int) * (14 + 24) - 24 ∧
      (monthRowsLayout 1920 1080 14 24 12).startX =
        Int.fdiv (1920 - (monthRowsLayout 1920 1080 14 24 12).gridWidth) 2 ∧
      (monthRowsLayout 1920 1080 14 24 12).startY =
        Int.fdiv (1080 - (monthRowsLayout 1920 1080 14 24 12).gridHeight) 2 ∧
      ((0 ≤ (monthRowsLayout 1920 1080 14 24 12).startX ∧
          (monthRowsLayout 1920 1080 14 24 12).startX +
            (monthRowsLayout 1920 1080 14 24 12).gridWidth ≤ 1920) ↔
        (monthRowsLayout 1920 1080 14 24 12).gridWidth ≤ 1920)) ∧
    (monthRowsLayout 1920 1080 14 24 12).gridWidth = 1154 ∧
    (monthRowsLayout 1920 1080 14 24 12).gridWidth ≤ 1920 ∧
    (monthRowsLayout 1920 1080 14 24 12).gridHeight ≤ 1078 :=
  c5_layout_amended 1920 1080 14 24 31 12 366 12 (by decide)

/-- The row-major cell list enumerates cell `i` at row `i / cols`,
column `i % cols`. -/
theorem gridCells_eq (rows cols : Nat) (hc : 0 < cols) :
    gridCells rows cols = (List.range (rows * cols)).map fun i => (i / cols, i % cols) := by
  induction rows with
  | zero => simp [gridCells]
  | succ r ih =>
    have hmul : (r + 1) * cols = r * cols + cols := by ring
    rw [gridCells, List.range_succ, List.flatMap_append, hmul, List.range_add,
      List.map_append]
    have hpre : (List.range r).flatMap (fun a => (List.range cols).map fun c => (a, c)) =
        gridCells r cols := rfl
    rw [hpre, ih]
    congr 1
    simp only [List.flatMap_cons, List.flatMap_nil, List.append_nil, List.map_map]
    refine List.map_congr_left fun c hcmem => ?_
    have hclt : c < cols := List.mem_range.mp hcmem
    simp only [Function.comp_apply]
    have hdiv : (r * cols + c) / cols = r := by
      rw [Nat.add_comm, Nat.add_mul_div_right _ _ hc, Nat.div_eq_of_lt hclt]
      omega
    have hmod : (r * cols + c) % cols = c := by
      rw [Nat.add_comm, Nat.add_mul_mod_self_right, Nat.mod_eq_of_lt hclt]
    rw [hdiv, hmod]

/-- State of `draw_grid`'s dot loop after scanning the first `n` cells in
row-major order: `min n total` dots have been drawn, each in the closed
form `dotSpec`, and `prev_period_index` is the period of the last drawn
dot (`-1` if none). -/
theorem gridStep_foldl (fc dpp total cols : Nat) (cdi : Option Nat) (n : Nat) :
    ((List.range n).map fun i => (i / cols, i % cols)).foldl
        (gridStep fc dpp total cdi) (0, -1, []) =
      (min n total,
        (if min n total = 0 then (-1 : Int) else (((min n total - 1) / dpp : Nat) : Int)),
        ((List.range (min n total)).map (dotSpec fc dpp cols cdi)).reverse) := by
  induction n with
  | zero => simp
  | succ n ih =>
    rw [List.range_succ, List.map_append, List.foldl_append, ih]
    simp only [List.map_cons, List.map_nil, List.foldl_cons, List.foldl_nil]
    by_cases hn : n < total
    · have hminn : min n total = n := by omega
      have hminn1 : min (n + 1) total = n + 1 := by omega
      rw [hminn, hminn1]
      simp only [gridStep, hn, if_pos]
      refine congrArg₂ Prod.mk ?_ (congrArg₂ Prod.mk ?_ ?_)
      · simp
      · simp
      · rw [List.range_succ, List.map_append, List.reverse_append]
        simp only [List.map_cons, List.map_nil, List.reverse_cons, List.reverse_nil,
          List.nil_append, List.singleton_append]
        congr 1
        simp only [dotSpec, DrawnDot.mk.injEq, true_and]
        refine ⟨?_, ?_⟩
        · cases n with
          | zero => simp
          | succ k =>
            rw [if_neg (Nat.succ_ne_zero k)]
            simp only [Nat.add_sub_cancel]
            have h1 : decide ((((k + 1) / dpp : Nat) : Int) ≠ ((k / dpp : Nat) : Int)) =
                decide ((k + 1) / dpp ≠ k / dpp) :=
              decide_eq_decide.mpr (not_congr Int.natCast_inj)
            have h2 : decide (((k / dpp : Nat) : Int) ≠ -1) = true :=
              decide_eq_true (by have := Int.natCast_nonneg (k / dpp); omega)
            have h3 : decide (0 < (k + 1) % cols) = decide ((k + 1) % cols ≠ 0) :=
              decide_eq_decide.mpr Nat.pos_iff_ne_zero
            have h4 : decide (0 < k + 1) = true := decide_eq_true (Nat.succ_pos k)
            rw [h1, h2, h3, h4, Bool.and_true, Bool.true_and]
        · have hlen : periodColorsFilled.length = 4 := rfl
          rw [hlen]
    · have hminn : min n total = total := by omega
      have hminn1 : min (n + 1) total = total := by omega
      rw [hminn, hminn1]
      have hstop : ¬ (total < total) := by omega
      simp only [gridStep, hstop, if_false, if_neg]

/-- C4: in flat-stream rendering every dot of index `idx` (in row-major
order, up to `min(totalCount, cols*rows)` dots) has period index
`idx / dotsPerPeriod` and color bucket `period % 4` (4 being the length
of both dot palettes); it is filled exactly when `idx < filledCount`
(rendered as the three-layer today highlight when `idx` is the
current-day index, otherwise with the embedded highlight ellipse), empty
otherwise; and a separator is drawn immediately before it exactly when it
is not the first dot, its period differs from the previous dot's period
and its column is not 0. -/
theorem c4_flat_stream_dots (fc tc dpp cols rows : Nat) (cdi : Option Nat)
    (hdpp : 0 < dpp) (hcols : 0 < cols) :
    drawGridDots fc tc dpp cols rows cdi =
      (List.range (min tc (cols * rows))).map (dotSpec fc dpp cols cdi) ∧
    periodColorsFilled.length = 4 ∧ periodColorsEmpty.length = 4 := by
  refine ⟨?_, rfl, rfl⟩
  show (((gridCells rows cols).foldl
      (gridStep fc dpp (min tc (cols * rows)) cdi) (0, -1, [])).2.2).reverse = _
  rw [gridCells_eq rows cols hcols, gridStep_foldl]
  dsimp only
  rw [List.reverse_reverse]
  have hmin : min (rows * cols) (min tc (cols * rows)) = min tc (cols * rows) := by
    rw [Nat.mul_comm rows cols]
    omega
  rw [hmin]

/-- C4 witness: the spec example `filledCount = 10, totalCount = 52,
dotsPerPeriod = 7` on a 10-column grid. -/
theorem c4_flat_stream_dots_witness :
    drawGridDots 10 52 7 10 6 none =
      (List.range (min 52 (10 * 6))).map (dotSpec 10 7 10 none) ∧
    periodColorsFilled.length = 4 ∧ periodColorsEmpty.length = 4 :=
  c4_flat_stream_dots 10 52 7 10 6 none (by decide) (by decide)

/-- Inverse of the linear month index on calendar months. -/
theorem monthOfIdx_eq (y m : Int) (h1 : 1 ≤ m) (h2 : m ≤ 12) :
    monthOfIdx (12 * y + m) = (y, m) := by
  simp only [monthOfIdx, Int.fdiv_eq_ediv _ (by norm_num : (0 : Int) ≤ 12), Prod.mk.injEq]
  exact ⟨by omega, by omega⟩

/-- The month loop started at a calendar month `(y, m)` with `n` months
up to the end month produces exactly the `n` chronologically consecutive
months from `(y, m)`. -/
theorem monthsLoopFuel_eq (n : Nat) : ∀ y m ey em : Int, 1 ≤ m → m ≤ 12 → 1 ≤ em →
    em ≤ 12 → 12 * ey + em - (12 * y + m) + 1 = n →
    monthsLoopFuel n y m ey em =
      (List.range n).map fun k : Nat => monthOfIdx (12 * y + m + (k : Int)) := by
  induction n with
  | zero => intro y m ey em _ _ _ _ _; simp [monthsLoopFuel]
  | succ n ih =>
    intro y m ey em hm1 hm2 he1 he2 hcount
    have hguard : y < ey ∨ (y = ey ∧ m ≤ em) := by omega
    have hstep : monthsLoopFuel (n + 1) y m ey em =
        (y, m) :: (if m = 12 then monthsLoopFuel n (y + 1) 1 ey em
          else monthsLoopFuel n y (m + 1) ey em) := by
      simp only [monthsLoopFuel]
      rw [if_pos hguard]
    have hhead : monthOfIdx (12 * y + m + ((0 : Nat) : Int)) = (y, m) := by
      rw [show (12 * y + m + ((0 : Nat) : Int)) = 12 * y + m by push_cast; ring]
      exact monthOfIdx_eq y m hm1 hm2
    rw [hstep, List.range_succ_eq_map, List.map_cons, List.map_map, hhead]
    by_cases h12 : m = 12
    · subst h12
      rw [if_pos rfl, ih (y + 1) 1 ey em (by omega) (by omega) he1 he2 (by push_cast at hcount ⊢; omega)]
      congr 1
      refine List.map_congr_left fun k _ => ?_
      simp only [Function.comp_apply]
      congr 1
      push_cast
      ring
    · rw [if_neg h12, ih y (m + 1) ey em (by omega) (by omega) he1 he2 (by push_cast at hcount ⊢; omega)]
      congr 1
      refine List.map_congr_left fun k _ => ?_
      simp only [Function.comp_apply]
      congr 1
      push_cast
      ring

/-- C3: for a start month lexicographically at most the end month, the
month-row grid has exactly one row per calendar month of the inclusive
span, in chronological order, and 31 columns. -/
theorem c3_month_rows_chronological (w h sy sm sd ey em ed t : Int) (h1 : 1 ≤ sm)
    (h2 : sm ≤ 12) (h3 : 1 ≤ em) (h4 : em ≤ 12)
    (hle : sy < ey ∨ (sy = ey ∧ sm ≤ em)) :
    (drawMonthRows w h sy sm sd ey em ed t).months =
      (List.range (12 * ey + em - (12 * sy + sm) + 1).toNat).map
        (fun k : Nat => monthOfIdx (12 * sy + sm + (k : Int))) ∧
    (drawMonthRows w h sy sm sd ey em ed t).rows =
      (12 * ey + em - (12 * sy + sm) + 1).toNat ∧
    (drawMonthRows w h sy sm sd ey em ed t).cols = 31 := by
  have hpos : 1 ≤ 12 * ey + em - (12 * sy + sm) + 1 := by omega
  have hcast : 12 * ey + em - (12 * sy + sm) + 1 =
      (((12 * ey + em - (12 * sy + sm) + 1).toNat : Nat) : Int) := by omega
  have hmonths : (drawMonthRows w h sy sm sd ey em ed t).months =
      (List.range (12 * ey + em - (12 * sy + sm) + 1).toNat).map
        (fun k : Nat => monthOfIdx (12 * sy + sm + (k : Int))) := by
    show monthsBetween sy sm ey em = _
    rw [monthsBetween, show 12 * (ey - sy) + (em - sm) + 1 =
      12 * ey + em - (12 * sy + sm) + 1 by ring]
    exact monthsLoopFuel_eq _ sy sm ey em h1 h2 h3 h4 hcast
  refine ⟨hmonths, ?_, rfl⟩
  show max 1 (drawMonthRows w h sy sm sd ey em ed t).months.length = _
  rw [hmonths]
  simp only [List.length_map, List.length_range]
  omega

/-- C3 witness: the period 2025-12-01 .. 2026-05-31 produces exactly the
six rows December 2025 through May 2026 in order, with 31 columns. -/
theorem c3_month_rows_chronological_witness :
    (drawMonthRows 1920 1080 2025 12 1 2026 5 31 0).months =
      [(2025, 12), (2026, 1), (2026, 2), (2026, 3), (2026, 4), (2026, 5)] ∧
    (drawMonthRows 1920 1080 2025 12 1 2026 5 31 0).rows = 6 ∧
    (drawMonthRows 1920 1080 2025 12 1 2026 5 31 0).cols = 31 := by
  have h := c3_month_rows_chronological 1920 1080 2025 12 1 2026 5 31 0
    (by decide) (by decide) (by decide) (by decide) (by decide)
  refine ⟨h.1.trans (by decide), h.2.1.trans (by decide), h.2.2⟩

/-- C2: month-row cells are classified purely from
`(cellDate, periodStart, periodEnd, today)`: a cell is disabled exactly
when its day number exceeds the days of its month or its date falls
outside the period; a non-disabled cell whose date is today (today then
lying inside the period) is always the three-layer today highlight; any
other non-disabled cell is filled exactly when its date is at most today
clamped into the period — nothing is filled when today precedes the
period, everything when today follows it — and empty otherwise, with
week-group bucket `(col / 7) % 4`. -/
theorem c2_cell_classification (y m : Int) (colIdx : Nat) (ps pe today : Int) :
    (cellPaint y m colIdx ps pe today = CellPaint.disabled ↔
      (daysInMonth y m < (colIdx : Int) + 1 ∨ rd y m ((colIdx : Int) + 1) < ps ∨
        pe < rd y m ((colIdx : Int) + 1))) ∧
    ((colIdx : Int) + 1 ≤ daysInMonth y m → ps ≤ rd y m ((colIdx : Int) + 1) →
      rd y m ((colIdx : Int) + 1) ≤ pe → rd y m ((colIdx : Int) + 1) = today →
      cellPaint y m colIdx ps pe today = CellPaint.todayHighlight) ∧
    ((colIdx : Int) + 1 ≤ daysInMonth y m → ps ≤ rd y m ((colIdx : Int) + 1) →
      rd y m ((colIdx : Int) + 1) ≤ pe → rd y m ((colIdx : Int) + 1) ≠ today →
      (cellPaint y m colIdx ps pe today = CellPaint.filledDot ((colIdx / 7) % 4) ↔
        ((ps ≤ today ∧ rd y m ((colIdx : Int) + 1) ≤ today) ∨ pe < today)) ∧
      (cellPaint y m colIdx ps pe today = CellPaint.emptyDot ((colIdx / 7) % 4) ↔
        ¬ ((ps ≤ today ∧ rd y m ((colIdx : Int) + 1) ≤ today) ∨ pe < today))) := by
  refine ⟨?_, ?_, ?_⟩ <;>
    simp only [cellPaint, filledUntil] <;>
    split_ifs <;>
    simp_all <;>
    omega

/-- C2 witness: February 2024 (leap year) with the period
2024-02-01..2024-02-29 and today 2024-02-15: day 30 is disabled, day 15
is the today highlight, day 1 is filled and day 29 is empty. -/
theorem c2_cell_classification_witness :
    cellPaint 2024 2 29 (rd 2024 2 1) (rd 2024 2 29) (rd 2024 2 15) = CellPaint.disabled ∧
      cellPaint 2024 2 14 (rd 2024 2 1) (rd 2024 2 29) (rd 2024 2 15) =
        CellPaint.todayHighlight ∧
      cellPaint 2024 2 0 (rd 2024 2 1) (rd 2024 2 29) (rd 2024 2 15) =
        CellPaint.filledDot 0 ∧
      cellPaint 2024 2 28 (rd 2024 2 1) (rd 2024 2 29) (rd 2024 2 15) =
        CellPaint.emptyDot 0 := by
  refine ⟨?_, ?_, ?_, ?_⟩
  · exact (c2_cell_classification 2024 2 29 (rd 2024 2 1) (rd 2024 2 29)
      (rd 2024 2 15)).1.mpr (by decide)
  · exact (c2_cell_classification 2024 2 14 (rd 2024 2 1) (rd 2024 2 29)
      (rd 2024 2 15)).2.1 (by decide) (by decide) (by decide) (by decide)
  · exact ((c2_cell_classification 2024 2 0 (rd 2024 2 1) (rd 2024 2 29)
      (rd 2024 2 15)).2.2 (by decide) (by decide) (by decide) (by decide)).1.mpr (by decide)
  · exact ((c2_cell_classification 2024 2 28 (rd 2024 2 1) (rd 2024 2 29)
      (rd 2024 2 15)).2.2 (by decide) (by decide) (by decide) (by decide)).2.mpr (by decide)

/-- C7 counterexample: the scanline fallback does not compute the
specified bilinear blend.  For corner channels `TL = 0, TR = 40,
BL = BR = 0` at `nx = 1/2, ny = 0`, the reference formula gives 20 but
the fallback (which interpolates the top corners along `ny` instead of
`nx`) gives 0. -/
theorem c7_fallback_not_bilinear_counterexample :
    ((fallbackChannel 0 40 0 0 (1/2) 0 : ℚ) ≠ specBilinearChannel 0 40 0 0 (1/2) 0) ∧
      fallbackChannel 0 40 0 0 (1/2) 0 = 0 ∧
      specBilinearChannel 0 40 0 0 (1/2) 0 = 20 := by
  norm_num [fallbackChannel, specBilinearChannel, lerpQ, truncQ]

/-- C7 (amended): only the vectorized path computes the specified
bilinear interpolation — its per-channel color equals the lerp-composed
reference and the canonical four-weight form, and its vignette/glow
post-processing applied to either expression agrees; the scanline
fallback instead computes the axis-transposed blend (the four-weight
form with `nx` and `ny` exchanged), and it applies no vignette, glow or
noise pass. -/
theorem c7_gradient_paths_amended (a b c d nx ny ρ : ℚ) :
    numpyChannel a b c d nx ny = bilinearWeights a b c d nx ny ∧
      numpyChannel a b c d nx ny = specBilinearChannel a b c d nx ny ∧
      numpyPostChannel (numpyChannel a b c d nx ny) ρ =
        numpyPostChannel (bilinearWeights a b c d nx ny) ρ ∧
      fallbackRealChannel a b c d nx ny = bilinearWeights a b c d ny nx := by
  have h : numpyChannel a b c d nx ny = bilinearWeights a b c d nx ny := by
    simp only [numpyChannel, bilinearWeights]
    ring
  refine ⟨h, ?_, by rw [h], ?_⟩
  · simp only [numpyChannel, specBilinearChannel, lerpQ]
  · simp only [fallbackRealChannel, bilinearWeights]
    ring

/-- C6 counterexample: the renderer has no seed mode — the calendar date
is not an input of the background computation and the global random
generator is never seeded.  Two invocations on the same date whose
(unseeded) draws pick palettes {0, 1} respectively {0, 2}, with equal
weights and all other draws identical, produce different background
corner colors, so the themes are not field-for-field identical. -/
theorem c6_unseeded_theme_counterexample :
    bgCorners
        { paletteChoices := [0, 1], weights := [1/2, 1/2], variation := 0,
          variationTopRight := 0, variationBottomRight := 0, boost := 1 } ≠
      bgCorners
        { paletteChoices := [0, 2], weights := [1/2, 1/2], variation := 0,
          variationTopRight := 0, variationBottomRight := 0, boost := 1 } := by
  simp only [bgCorners, blendCorner, colorPalettes, colorPalettes1, colorPalettes2,
    colorPalettes3, colorPalettes4, colorPalettes5, colorPalettes6, colorPalettes7,
    colorPalettes8, colorPalettes9, colorPalettes10, smulQ3, addQ3, ofRGB, clipQ3,
    List.cons_append, List.nil_append, List.map, List.getD, List.zip, List.zipWith,
    List.foldl, ne_eq, Prod.mk.injEq]
  norm_num

/-- C6 (amended): rendering is deterministic only relative to the values
drawn from the global random generator: invocations whose palette picks,
blend weights, corner variations and boost coincide produce identical
background corners.  No `dateSeeded` or explicit-seed mode exists in the
code, so equality of calendar dates alone guarantees nothing. -/
theorem c6_deterministic_given_draws_amended (d₁ d₂ : BgDraws)
    (hp : d₁.paletteChoices = d₂.paletteChoices) (hw : d₁.weights = d₂.weights)
    (hv : d₁.variation = d₂.variation) (hvt : d₁.variationTopRight = d₂.variationTopRight)
    (hvb : d₁.variationBottomRight = d₂.variationBottomRight) (hb : d₁.boost = d₂.boost) :
    bgCorners d₁ = bgCorners d₂ := by
  have h : d₁ = d₂ := by
    cases d₁
    cases d₂
    simp_all
  rw [h]

/-- C6 amended witness: two invocations with identical draws. -/
theorem c6_deterministic_given_draws_amended_witness :
    bgCorners
        { paletteChoices := [0, 1], weights := [1/2, 1/2], variation := 0,
          variationTopRight := 0, variationBottomRight := 0, boost := 1 } =
      bgCorners
        { paletteChoices := [0, 1], weights := [1/2, 1/2], variation := 0,
          variationTopRight := 0, variationBottomRight := 0, boost := 1 } :=
  c6_deterministic_given_draws_amended _ _ rfl rfl rfl rfl rfl rfl

end LifeCal
